import Mathlib

/-
Verification of the secrets facade package (gocloud.dev/secrets, file
src/secrets/secrets.go): the Keeper facade, the error normalizer and the
URLMux scheme registry, shallowly embedded in Lean.

Conventions of the embedding:
* byte slices are lists of naturals (the facade treats payloads as opaque);
* Go errors are a concrete inductive GoError; a Go "error" value that may be
  nil is an Option GoError;
* a Go panic is the .error branch of an Except String result;
* a possibly-nil pointer receiver or interface value is an Option;
* Go maps are association lists; indexing a missing key yields the zero
  value (none), exactly as in Go.
The collaborators that live outside src/ (the driver capability contract,
the gcerr error helpers, the oc tracer, net/url parsing) are modelled from
the spec; each such definition says so in its doc comment.
-/

/-- Byte slices, as the facade sees them: opaque sequences of bytes. -/
abbrev Bytes := List Nat

/-- Go error values reaching or produced by this package: a backend-owned
error (carrying the backend's do-not-wrap marker), a plain message error
made by fmt.Errorf, or a normalized gcerr.Error wrapper carrying an
error-kind code, the embedded cause, and the static context tag. -/
inductive GoError where
  | backendErr (id : Nat) (doNotWrap : Bool)
  | strErr (msg : String)
  | gcErr (code : Nat) (cause : GoError) (whence : String)
deriving DecidableEq, Repr

/-- Modelled from the spec: the destination argument of ErrorAs, which in Go
is an arbitrary interface value. It is nil, a non-pointer value, or a
pointer (identified by a tag). -/
inductive Target where
  | nilTarget
  | nonPointer
  | pointer (id : Nat)
deriving DecidableEq, Repr

/-- Modelled from the spec: a context value. The facade must thread the
caller's cancellation context through to the backend; the tracer derives a
new context carrying the started span. We record the stack of span names. -/
structure Ctx where
  spans : List String
deriving DecidableEq, Repr

/-- Modelled from the spec: gcerr.DoNotWrap - detects the backend-signaled
do-not-wrap marker causing an error to bypass normalization. -/
def gcerr.DoNotWrap : GoError → Bool
  | .backendErr _ d => d
  | .strErr _ => false
  | .gcErr _ _ _ => false

/-- Modelled from the spec: gcerr.New - wraps a failure into a uniform
error value carrying an error-kind code, the original error as embedded
cause, and a short static context tag. (The call-depth argument of the Go
function only affects stack capture and is dropped.) -/
def gcerr.New (code : Nat) (cause : GoError) (whence : String) : GoError :=
  .gcErr code cause whence

/-- Modelled from the spec: gcerr.ErrorAs - fails fast (panics) when the
target is nil or not a pointer, returns false without attempting conversion
when the supplied error is nil, and otherwise delegates to the supplied
backend conversion function. -/
def gcerr.ErrorAs (err : Option GoError) (i : Target)
    (errorAs : GoError → Target → Bool) : Except String Bool :=
  match i with
  | .nilTarget => .error "ErrorAs: target cannot be nil"
  | .nonPointer => .error "ErrorAs: target must be a pointer"
  | .pointer n =>
    match err with
    | none => .ok false
    | some e => .ok (errorAs e (.pointer n))

/-- Modelled from the spec: the backend capability contract
(driver.Keeper) - encrypt, decrypt, error classification (ErrorCode), and
typed error conversion (ErrorAs). The provider name stands for the identity
Go recovers from the driver's type. -/
structure DriverKeeper where
  Encrypt : Ctx → Bytes → Except GoError Bytes
  Decrypt : Ctx → Bytes → Except GoError Bytes
  ErrorCode : GoError → Nat
  ErrorAs : GoError → Target → Bool
  providerName : String

/-- Modelled from the spec: oc.ProviderName - the provider identity of a
backend instance (Go derives it from the driver's type via reflection). -/
def oc.ProviderName (k : DriverKeeper) : String :=
  k.providerName

/-- Modelled from the spec: oc.LatencyMeasure - the handle of the latency
distribution metric of a package ("gocloud.dev/secrets/latency"). -/
def oc.LatencyMeasure (pkg : String) : String :=
  pkg ++ "/latency"

/-- Modelled from the spec: an oc.Tracer - the immutable instrumentation
context of a facade: package identity, provider identity, latency
measurement handle. -/
structure Tracer where
  Package : String
  Provider : String
  LatencyMeasure : String
deriving DecidableEq, Repr

/-- Modelled from the spec: Tracer.Start - starts a span named by package
and method ("gocloud.dev/secrets/Encrypt") and returns the derived context
carrying it. Tracer.End only emits the span and the measurements to the
observability sink, an external collaborator excluded from this core, and
returns nothing; it therefore has no embedded counterpart. -/
def Tracer.Start (t : Tracer) (ctx : Ctx) (method : String) : Ctx :=
  ⟨(t.Package ++ "/" ++ method) :: ctx.spans⟩

/-- Keeper does encryption and decryption (secrets.go lines 70-73): one
bound backend and one tracer. -/
structure Keeper where
  k : DriverKeeper
  tracer : Tracer

/-- The package name constant (secrets.go line 90). -/
def pkgName : String := "gocloud.dev/secrets"

/-- The package-level latency measure (secrets.go line 93). -/
def latencyMeasure : String := oc.LatencyMeasure pkgName

/-- newKeeper creates a Keeper (secrets.go lines 79-88). -/
def newKeeper (k : DriverKeeper) : Keeper :=
  { k := k
    tracer :=
      { Package := pkgName
        Provider := oc.ProviderName k
        LatencyMeasure := latencyMeasure } }

/-- wrapError (secrets.go lines 138-143): pass a do-not-wrap error through
verbatim, otherwise wrap it with the backend's own classification and the
"secrets" context tag. -/
def wrapError (k : Keeper) (err : GoError) : GoError :=
  if gcerr.DoNotWrap err then
    err
  else
    gcerr.New (k.k.ErrorCode err) err "secrets"

/-- Keeper.Encrypt (secrets.go lines 102-111): start the span, delegate to
the bound backend, and on failure return nil bytes and the normalized
error. The deferred tracer.End call only reports to the external
observability sink and does not affect the returned values. -/
def Keeper.Encrypt (k : Keeper) (ctx : Ctx) (plaintext : Bytes) :
    Option Bytes × Option GoError :=
  let ctx := k.tracer.Start ctx "Encrypt"
  match k.k.Encrypt ctx plaintext with
  | .error err => (none, some (wrapError k err))
  | .ok b => (some b, none)

/-- Keeper.Decrypt (secrets.go lines 114-123): symmetric to Encrypt. -/
def Keeper.Decrypt (k : Keeper) (ctx : Ctx) (ciphertext : Bytes) :
    Option Bytes × Option GoError :=
  let ctx := k.tracer.Start ctx "Decrypt"
  match k.k.Decrypt ctx ciphertext with
  | .error err => (none, some (wrapError k err))
  | .ok b => (some b, none)

/-- Keeper.ErrorAs (secrets.go lines 134-136): delegate to gcerr.ErrorAs
with the backend's conversion function. -/
def Keeper.ErrorAs (k : Keeper) (err : Option GoError) (i : Target) :
    Except String Bool :=
  gcerr.ErrorAs err i (fun e t => k.k.ErrorAs e t)

/-- A parsed URL (net/url.URL), reduced to what the registry inspects: the
scheme and the opaque remainder. -/
structure URLv where
  Scheme : String
  Rest : String
deriving DecidableEq, Repr

/-- A URL opener (secrets.go lines 150-152): can open a Keeper from a
parsed URL, returning the Keeper or an error. -/
structure KeeperURLOpener where
  OpenKeeperURL : Ctx → URLv → Option Keeper × Option GoError

/-- Rendering of a parsed URL back to a string, used by the %q verbs of the
error messages. -/
def URLv.toString (u : URLv) : String :=
  if u.Scheme = "" then u.Rest else u.Scheme ++ ":" ++ u.Rest

/-- Modelled from the spec: net/url.Parse. The scheme is a non-empty run of
letters before the first colon; a string containing a colon but no valid
scheme before it is malformed (a parse error); a string with no colon
parses as a relative URL with an empty scheme. -/
def url.Parse (s : String) : Except String URLv :=
  let cs := s.toList
  if cs.contains ':' then
    let pre := cs.takeWhile (fun c => c != ':')
    if pre ≠ [] ∧ pre.all Char.isAlpha then
      .ok ⟨String.mk pre, String.mk ((cs.dropWhile (fun c => c != ':')).drop 1)⟩
    else
      .error ("parse \"" ++ s ++ "\": first path segment in URL cannot contain colon")
  else
    .ok ⟨"", s⟩

/-- URLMux (secrets.go lines 159-161): the scheme registry. The zero value
has a nil map. -/
structure URLMux where
  schemes : Option (List (String × Option KeeperURLOpener))

/-- URLMux.RegisterKeeper (secrets.go lines 165-172): allocate the map when
nil, panic when the scheme already exists, otherwise store the opener. A
nil interface value is a legal opener. -/
def URLMux.RegisterKeeper (mux : URLMux) (scheme : String)
    (opener : Option KeeperURLOpener) : Except String URLMux :=
  match mux.schemes with
  | none => .ok ⟨some [(scheme, opener)]⟩
  | some m =>
    if (m.lookup scheme).isSome then
      .error ("scheme \"" ++ scheme ++ "\" already registered on mux")
    else
      .ok ⟨some ((scheme, opener) :: m)⟩

/-- Whether a scheme currently has an entry in the mux's map (the map
membership test of line 168). -/
def URLMux.schemeRegistered (mux : URLMux) (s : String) : Bool :=
  match mux.schemes with
  | none => false
  | some m => (m.lookup s).isSome

/-- The opener variable of secrets.go lines 190-193: nil unless the
receiver is non-nil and its map holds a non-nil opener under the scheme
(indexing a nil or missing key yields the zero value). -/
def muxLookup (mux : Option URLMux) (scheme : String) : Option KeeperURLOpener :=
  match mux with
  | none => none
  | some m =>
    match m.schemes with
    | none => none
    | some l => (l.lookup scheme).join

/-- URLMux.OpenKeeperURL (secrets.go lines 186-198): reject a URL without a
scheme, look the opener up (tolerating a nil receiver), reject an absent
opener, otherwise dispatch to it. -/
def URLMux.OpenKeeperURL (mux : Option URLMux) (ctx : Ctx) (u : URLv) :
    Option Keeper × Option GoError :=
  if u.Scheme = "" then
    (none, some (.strErr ("open keeper \"" ++ u.toString ++ "\": no scheme in URL")))
  else
    match muxLookup mux u.Scheme with
    | none =>
      (none, some (.strErr ("open keeper \"" ++ u.toString ++
        "\": no provider registered for " ++ u.Scheme)))
    | some op => op.OpenKeeperURL ctx u

/-- URLMux.OpenKeeper (secrets.go lines 176-182): parse the URL string,
report a parse failure, otherwise dispatch to OpenKeeperURL. -/
def URLMux.OpenKeeper (mux : Option URLMux) (ctx : Ctx) (urlstr : String) :
    Option Keeper × Option GoError :=
  match url.Parse urlstr with
  | .error e => (none, some (.strErr ("open keeper: " ++ e)))
  | .ok u => URLMux.OpenKeeperURL mux ctx u

/-- Modelled from the spec: the round-trip law of the backend capability
contract - when no error occurs, decrypting what Encrypt produced returns
the original payload. -/
def ContractRoundTrip (d : DriverKeeper) : Prop :=
  ∀ ctx1 ctx2 p c r, d.Encrypt ctx1 p = .ok c → d.Decrypt ctx2 c = .ok r → r = p

/-- A concrete backend exercising the facade: shifts every byte up by one
on encryption and back down on decryption, never failing. -/
def caesarDriver : DriverKeeper where
  Encrypt := fun _ p => .ok (p.map (fun b => b + 1))
  Decrypt := fun _ c => .ok (c.map (fun b => b - 1))
  ErrorCode := fun _ => 2
  ErrorAs := fun e _ =>
    match e with
    | .backendErr _ _ => true
    | _ => false
  providerName := "caesar"

/-- The caesar backend bound into a facade. -/
def caesarKeeper : Keeper := newKeeper caesarDriver

/-- A concrete backend whose operations always fail with a wrappable
backend error. -/
def failDriver : DriverKeeper where
  Encrypt := fun _ _ => .error (.backendErr 7 false)
  Decrypt := fun _ _ => .error (.backendErr 7 false)
  ErrorCode := fun _ => 5
  ErrorAs := fun _ _ => false
  providerName := "fail"

/-- The failing backend bound into a facade. -/
def failKeeper : Keeper := newKeeper failDriver

/-- An empty context for concrete runs. -/
def ctx0 : Ctx := ⟨[]⟩

/-- The caesar backend satisfies the contract's round-trip law. -/
theorem caesar_contract : ContractRoundTrip caesarDriver := by
  intro ctx1 ctx2 p c r he hd
  simp only [caesarDriver, Except.ok.injEq] at he hd
  subst he
  subst hd
  simp [List.map_map, Function.comp_def]

/-- C1: for every backend satisfying the capability contract's round-trip
law and every payload, when no error occurs, the facade's Decrypt applied
to the facade's Encrypt output returns the original payload, since both
methods delegate unchanged to the bound backend. -/
theorem keeper_encrypt_decrypt_roundtrip (k : Keeper) (hrt : ContractRoundTrip k.k)
    (ctx1 ctx2 : Ctx) (p c r : Bytes)
    (he : Keeper.Encrypt k ctx1 p = (some c, none))
    (hd : Keeper.Decrypt k ctx2 c = (some r, none)) : r = p := by
  simp only [Keeper.Encrypt] at he
  simp only [Keeper.Decrypt] at hd
  cases h1 : k.k.Encrypt (k.tracer.Start ctx1 "Encrypt") p with
  | error e => rw [h1] at he; simp at he
  | ok b =>
    rw [h1] at he
    simp only [Prod.mk.injEq, Option.some.injEq] at he
    cases h2 : k.k.Decrypt (k.tracer.Start ctx2 "Decrypt") c with
    | error e => rw [h2] at hd; simp at hd
    | ok b2 =>
      rw [h2] at hd
      simp only [Prod.mk.injEq, Option.some.injEq] at hd
      rw [he.1] at h1
      rw [← hd.1]
      exact hrt _ _ p c b2 h1 h2

/-- Witness for C1 at the caesar backend and the payload [104, 105]. -/
theorem keeper_encrypt_decrypt_roundtrip_witness :
    ContractRoundTrip caesarKeeper.k ∧
    Keeper.Encrypt caesarKeeper ctx0 [104, 105] = (some [105, 106], none) ∧
    Keeper.Decrypt caesarKeeper ctx0 [105, 106] = (some [104, 105], none) ∧
    ([104, 105] : Bytes) = [104, 105] :=
  ⟨caesar_contract, rfl, rfl,
    keeper_encrypt_decrypt_roundtrip caesarKeeper caesar_contract ctx0 ctx0
      [104, 105] [105, 106] [104, 105] rfl rfl⟩

/-- C2: a backend error carrying the do-not-wrap marker is returned by the
normalizer unchanged; any other backend error is wrapped into a normalized
error whose kind code is the backend's own classification of the error and
which embeds the error as its cause. -/
theorem wrapError_spec (k : Keeper) (e : GoError) :
    (gcerr.DoNotWrap e = true → wrapError k e = e) ∧
    (gcerr.DoNotWrap e = false →
      wrapError k e = GoError.gcErr (k.k.ErrorCode e) e "secrets") := by
  constructor <;> intro h <;> simp [wrapError, gcerr.New, h]

/-- Witness for C2 at a marked and an unmarked backend error. -/
theorem wrapError_spec_witness :
    (gcerr.DoNotWrap (.backendErr 1 true) = true ∧
      wrapError caesarKeeper (.backendErr 1 true) = .backendErr 1 true) ∧
    (gcerr.DoNotWrap (.backendErr 2 false) = false ∧
      wrapError caesarKeeper (.backendErr 2 false) =
        GoError.gcErr (caesarKeeper.k.ErrorCode (.backendErr 2 false))
          (.backendErr 2 false) "secrets") :=
  ⟨⟨rfl, (wrapError_spec caesarKeeper (.backendErr 1 true)).1 rfl⟩,
   ⟨rfl, (wrapError_spec caesarKeeper (.backendErr 2 false)).2 rfl⟩⟩

/-- C3: a first registration of a scheme that is not yet registered never
panics, and once a registration of a scheme has succeeded, any second
registration of that scheme panics with the duplicate-scheme message,
whatever the two openers are. -/
theorem registerKeeper_duplicate_panics (mux mux' : URLMux) (s : String)
    (o1 o2 : Option KeeperURLOpener) :
    (URLMux.schemeRegistered mux s = false →
      ∃ m2, URLMux.RegisterKeeper mux s o1 = .ok m2) ∧
    (URLMux.RegisterKeeper mux s o1 = .ok mux' →
      URLMux.RegisterKeeper mux' s o2 =
        .error ("scheme \"" ++ s ++ "\" already registered on mux")) := by
  constructor
  · intro hfresh
    cases hm : mux.schemes with
    | none => exact ⟨⟨some [(s, o1)]⟩, by simp [URLMux.RegisterKeeper, hm]⟩
    | some m =>
      simp only [URLMux.schemeRegistered, hm] at hfresh
      exact ⟨⟨some ((s, o1) :: m)⟩, by simp [URLMux.RegisterKeeper, hm, hfresh]⟩
  · intro hok
    cases hm : mux.schemes with
    | none =>
      simp only [URLMux.RegisterKeeper, hm, Except.ok.injEq] at hok
      subst hok
      simp [URLMux.RegisterKeeper, List.lookup]
    | some m =>
      simp only [URLMux.RegisterKeeper, hm] at hok
      by_cases hx : (m.lookup s).isSome
      · simp [hx] at hok
      · simp only [hx, Bool.false_eq_true, if_false, Except.ok.injEq] at hok
        subst hok
        simp [URLMux.RegisterKeeper, List.lookup]

/-- Witness for C3: registering "mem" on the zero mux succeeds, and
registering it again panics. -/
theorem registerKeeper_duplicate_panics_witness :
    (URLMux.schemeRegistered ⟨none⟩ "mem" = false ∧
      ∃ m2, URLMux.RegisterKeeper ⟨none⟩ "mem" none = .ok m2) ∧
    (URLMux.RegisterKeeper ⟨none⟩ "mem" none = .ok ⟨some [("mem", none)]⟩ ∧
      URLMux.RegisterKeeper ⟨some [("mem", none)]⟩ "mem" none =
        .error ("scheme \"" ++ "mem" ++ "\" already registered on mux")) :=
  ⟨⟨rfl, (registerKeeper_duplicate_panics ⟨none⟩ ⟨some [("mem", none)]⟩ "mem"
      none none).1 rfl⟩,
   ⟨rfl, (registerKeeper_duplicate_panics ⟨none⟩ ⟨some [("mem", none)]⟩ "mem"
      none none).2 rfl⟩⟩

/-- C4: for every URL whose non-empty scheme resolves to no opener - in
particular against the zero registry - OpenKeeperURL returns no Keeper and
an error whose message names the unregistered scheme. -/
theorem openKeeperURL_unregistered (mux : Option URLMux) (ctx : Ctx) (u : URLv)
    (hs : u.Scheme ≠ "") (hnone : muxLookup mux u.Scheme = none) :
    URLMux.OpenKeeperURL mux ctx u =
      (none, some (.strErr ("open keeper \"" ++ u.toString ++
        "\": no provider registered for " ++ u.Scheme))) := by
  simp [URLMux.OpenKeeperURL, hs, hnone]

/-- Witness for C4 at the zero registry and the URL unknownscheme://x. -/
theorem openKeeperURL_unregistered_witness :
    (URLv.mk "unknownscheme" "//x").Scheme ≠ "" ∧
    muxLookup (some ⟨none⟩) "unknownscheme" = none ∧
    URLMux.OpenKeeperURL (some ⟨none⟩) ctx0 ⟨"unknownscheme", "//x"⟩ =
      (none, some (.strErr ("open keeper \"" ++
        (URLv.mk "unknownscheme" "//x").toString ++
        "\": no provider registered for " ++ "unknownscheme"))) :=
  ⟨by decide, rfl,
    openKeeperURL_unregistered (some ⟨none⟩) ctx0 ⟨"unknownscheme", "//x"⟩
      (by decide) rfl⟩

/-- C5: a string that does not parse as a URL makes OpenKeeper return no
Keeper and a descriptive parse error, and a string parsing to a URL with an
empty scheme makes it return no Keeper and the no-scheme error; no
registered opener runs in either case. -/
theorem openKeeper_rejects_bad_urls (mux : Option URLMux) (ctx : Ctx) (s : String) :
    (∀ e, url.Parse s = .error e →
      URLMux.OpenKeeper mux ctx s = (none, some (.strErr ("open keeper: " ++ e)))) ∧
    (∀ u, url.Parse s = .ok u → u.Scheme = "" →
      URLMux.OpenKeeper mux ctx s =
        (none, some (.strErr ("open keeper \"" ++ u.toString ++
          "\": no scheme in URL")))) := by
  constructor
  · intro e h
    simp [URLMux.OpenKeeper, h]
  · intro u h hsch
    simp [URLMux.OpenKeeper, h, URLMux.OpenKeeperURL, hsch]

/-- Witness for C5 at a malformed string and at a scheme-less string,
against the zero registry. -/
theorem openKeeper_rejects_bad_urls_witness :
    (url.Parse "bad url://x" =
      .error "parse \"bad url://x\": first path segment in URL cannot contain colon" ∧
     URLMux.OpenKeeper (some ⟨none⟩) ctx0 "bad url://x" =
      (none, some (.strErr ("open keeper: " ++
        "parse \"bad url://x\": first path segment in URL cannot contain colon")))) ∧
    (url.Parse "relative/path" = .ok ⟨"", "relative/path"⟩ ∧
     (URLv.mk "" "relative/path").Scheme = "" ∧
     URLMux.OpenKeeper (some ⟨none⟩) ctx0 "relative/path" =
      (none, some (.strErr ("open keeper \"" ++
        (URLv.mk "" "relative/path").toString ++ "\": no scheme in URL")))) :=
  ⟨⟨rfl,
    (openKeeper_rejects_bad_urls (some ⟨none⟩) ctx0 "bad url://x").1 _ rfl⟩,
   ⟨rfl, rfl,
    (openKeeper_rejects_bad_urls (some ⟨none⟩) ctx0 "relative/path").2
      ⟨"", "relative/path"⟩ rfl rfl⟩⟩

/-- C6: Encrypt delegates to the bound backend and, on backend success,
returns exactly the backend's ciphertext with a nil error; on backend
failure it returns nil bytes and the normalizer's output instead of the raw
backend error, and Decrypt behaves symmetrically. -/
theorem keeper_delegates (k : Keeper) (ctx : Ctx) (pt ct : Bytes) :
    (∀ b, k.k.Encrypt (k.tracer.Start ctx "Encrypt") pt = .ok b →
      Keeper.Encrypt k ctx pt = (some b, none)) ∧
    (∀ e, k.k.Encrypt (k.tracer.Start ctx "Encrypt") pt = .error e →
      Keeper.Encrypt k ctx pt = (none, some (wrapError k e))) ∧
    (∀ b, k.k.Decrypt (k.tracer.Start ctx "Decrypt") ct = .ok b →
      Keeper.Decrypt k ctx ct = (some b, none)) ∧
    (∀ e, k.k.Decrypt (k.tracer.Start ctx "Decrypt") ct = .error e →
      Keeper.Decrypt k ctx ct = (none, some (wrapError k e))) := by
  refine ⟨?_, ?_, ?_, ?_⟩ <;> intro x h <;>
    simp [Keeper.Encrypt, Keeper.Decrypt, h]

/-- Witness for C6: success on the caesar backend, failure on the failing
backend, for both operations. -/
theorem keeper_delegates_witness :
    (caesarKeeper.k.Encrypt (caesarKeeper.tracer.Start ctx0 "Encrypt") [1, 2] =
        .ok [2, 3] ∧
      Keeper.Encrypt caesarKeeper ctx0 [1, 2] = (some [2, 3], none)) ∧
    (caesarKeeper.k.Decrypt (caesarKeeper.tracer.Start ctx0 "Decrypt") [2, 3] =
        .ok [1, 2] ∧
      Keeper.Decrypt caesarKeeper ctx0 [2, 3] = (some [1, 2], none)) ∧
    (failKeeper.k.Encrypt (failKeeper.tracer.Start ctx0 "Encrypt") [1, 2] =
        .error (.backendErr 7 false) ∧
      Keeper.Encrypt failKeeper ctx0 [1, 2] =
        (none, some (wrapError failKeeper (.backendErr 7 false)))) ∧
    (failKeeper.k.Decrypt (failKeeper.tracer.Start ctx0 "Decrypt") [1, 2] =
        .error (.backendErr 7 false) ∧
      Keeper.Decrypt failKeeper ctx0 [1, 2] =
        (none, some (wrapError failKeeper (.backendErr 7 false)))) :=
  ⟨⟨rfl, (keeper_delegates caesarKeeper ctx0 [1, 2] [2, 3]).1 [2, 3] rfl⟩,
   ⟨rfl, (keeper_delegates caesarKeeper ctx0 [1, 2] [2, 3]).2.2.1 [1, 2] rfl⟩,
   ⟨rfl, (keeper_delegates failKeeper ctx0 [1, 2] [1, 2]).2.1 _ rfl⟩,
   ⟨rfl, (keeper_delegates failKeeper ctx0 [1, 2] [1, 2]).2.2.2 _ rfl⟩⟩

/-- C7: ErrorAs panics when the target is nil or not a pointer, returns
false without conversion when the error is nil, and otherwise returns the
backend conversion's boolean result. -/
theorem keeper_errorAs_spec (k : Keeper) (err : Option GoError) (i : Target) :
    ((i = .nilTarget ∨ i = .nonPointer) → ∃ m, Keeper.ErrorAs k err i = .error m) ∧
    (∀ n, i = .pointer n → err = none → Keeper.ErrorAs k err i = .ok false) ∧
    (∀ n e, i = .pointer n → err = some e →
      Keeper.ErrorAs k err i = .ok (k.k.ErrorAs e (.pointer n))) := by
  refine ⟨?_, ?_, ?_⟩
  · rintro (rfl | rfl)
    · exact ⟨_, rfl⟩
    · exact ⟨_, rfl⟩
  · rintro n rfl rfl
    rfl
  · rintro n e rfl rfl
    rfl

/-- Witness for C7 at a nil target, a nil error and a backend error. -/
theorem keeper_errorAs_spec_witness :
    (∃ m, Keeper.ErrorAs caesarKeeper none .nilTarget = .error m) ∧
    Keeper.ErrorAs caesarKeeper none (.pointer 0) = .ok false ∧
    Keeper.ErrorAs caesarKeeper (some (.backendErr 3 false)) (.pointer 0) =
      .ok (caesarKeeper.k.ErrorAs (.backendErr 3 false) (.pointer 0)) :=
  ⟨(keeper_errorAs_spec caesarKeeper none .nilTarget).1 (Or.inl rfl),
   (keeper_errorAs_spec caesarKeeper none (.pointer 0)).2.1 0 rfl rfl,
   (keeper_errorAs_spec caesarKeeper (some (.backendErr 3 false)) (.pointer 0)).2.2
     0 (.backendErr 3 false) rfl rfl⟩

/-- A call against the facade, with its arguments. -/
inductive KeeperCall where
  | encryptCall (ctx : Ctx) (plaintext : Bytes)
  | decryptCall (ctx : Ctx) (ciphertext : Bytes)
  | errorAsCall (err : Option GoError) (i : Target)

/-- The receiver state after a facade method returns: each method body of
secrets.go reads the fields k.k and k.tracer but contains no assignment
through the receiver. -/
def Keeper.afterCall (k : Keeper) : KeeperCall → Keeper
  | .encryptCall ctx pt =>
    let _ := Keeper.Encrypt k ctx pt
    k
  | .decryptCall ctx ct =>
    let _ := Keeper.Decrypt k ctx ct
    k
  | .errorAsCall err i =>
    let _ := Keeper.ErrorAs k err i
    k

/-- C8: the Keeper is immutable - after any sequence of Encrypt, Decrypt
and ErrorAs calls with any arguments, the Keeper, and in particular its
backend reference and its instrumentation context, are the ones it was
constructed with. -/
theorem keeper_immutable (k : Keeper) (calls : List KeeperCall) :
    calls.foldl Keeper.afterCall k = k ∧
    (calls.foldl Keeper.afterCall k).k = k.k ∧
    (calls.foldl Keeper.afterCall k).tracer = k.tracer := by
  have h : calls.foldl Keeper.afterCall k = k := by
    induction calls with
    | nil => rfl
    | cons c cs ih =>
      rw [List.foldl_cons]
      have hstep : Keeper.afterCall k c = k := by cases c <;> rfl
      rw [hstep]
      exact ih
  exact ⟨h, by rw [h], by rw [h]⟩

/-- C9: calling OpenKeeperURL on a nil mux receiver with a URL carrying a
non-empty scheme does not dereference the receiver: it returns no Keeper
and the no-provider error, exactly as the zero registry would. -/
theorem openKeeperURL_nil_mux (ctx : Ctx) (u : URLv) (hs : u.Scheme ≠ "") :
    URLMux.OpenKeeperURL none ctx u =
      (none, some (.strErr ("open keeper \"" ++ u.toString ++
        "\": no provider registered for " ++ u.Scheme))) ∧
    URLMux.OpenKeeperURL none ctx u = URLMux.OpenKeeperURL (some ⟨none⟩) ctx u := by
  constructor
  · simp [URLMux.OpenKeeperURL, hs, muxLookup]
  · rfl

/-- Witness for C9 at the URL mem://a. -/
theorem openKeeperURL_nil_mux_witness :
    (URLv.mk "mem" "//a").Scheme ≠ "" ∧
    URLMux.OpenKeeperURL none ctx0 ⟨"mem", "//a"⟩ =
      (none, some (.strErr ("open keeper \"" ++ (URLv.mk "mem" "//a").toString ++
        "\": no provider registered for " ++ "mem"))) ∧
    URLMux.OpenKeeperURL none ctx0 ⟨"mem", "//a"⟩ =
      URLMux.OpenKeeperURL (some ⟨none⟩) ctx0 ⟨"mem", "//a"⟩ :=
  ⟨by decide,
   (openKeeperURL_nil_mux ctx0 ⟨"mem", "//a"⟩ (by decide)).1,
   (openKeeperURL_nil_mux ctx0 ⟨"mem", "//a"⟩ (by decide)).2⟩

/-- C10: registering a nil opener for a fresh scheme succeeds without
panicking; resolving that scheme afterwards fails with the no-provider
error, since resolution tests the looked-up opener against nil rather than
map membership; yet re-registering the scheme still panics as a
duplicate. -/
theorem registerKeeper_nil_opener (mux : URLMux) (s : String) (ctx : Ctx)
    (u : URLv) (hfresh : URLMux.schemeRegistered mux s = false)
    (hu : u.Scheme = s) (hs : s ≠ "") :
    ∃ mux', URLMux.RegisterKeeper mux s none = .ok mux' ∧
      URLMux.OpenKeeperURL (some mux') ctx u =
        (none, some (.strErr ("open keeper \"" ++ u.toString ++
          "\": no provider registered for " ++ u.Scheme))) ∧
      ∀ o2, URLMux.RegisterKeeper mux' s o2 =
        .error ("scheme \"" ++ s ++ "\" already registered on mux") := by
  have hu' : u.Scheme ≠ "" := by rw [hu]; exact hs
  cases hm : mux.schemes with
  | none =>
    refine ⟨⟨some [(s, none)]⟩, by simp [URLMux.RegisterKeeper, hm], ?_, ?_⟩
    · have hl : muxLookup (some ⟨some [(s, none)]⟩) u.Scheme = none := by
        simp [muxLookup, List.lookup, hu]
      simp [URLMux.OpenKeeperURL, hu', hl]
    · intro o2
      simp [URLMux.RegisterKeeper, List.lookup]
  | some m =>
    simp only [URLMux.schemeRegistered, hm] at hfresh
    refine ⟨⟨some ((s, none) :: m)⟩, by simp [URLMux.RegisterKeeper, hm, hfresh], ?_, ?_⟩
    · have hl : muxLookup (some ⟨some ((s, none) :: m)⟩) u.Scheme = none := by
        simp [muxLookup, List.lookup, hu]
      simp [URLMux.OpenKeeperURL, hu', hl]
    · intro o2
      simp [URLMux.RegisterKeeper, List.lookup]

/-- Witness for C10: a nil opener registered for "mem" on the zero mux. -/
theorem registerKeeper_nil_opener_witness :
    URLMux.schemeRegistered ⟨none⟩ "mem" = false ∧
    (URLv.mk "mem" "//a").Scheme = "mem" ∧
    "mem" ≠ "" ∧
    ∃ mux', URLMux.RegisterKeeper ⟨none⟩ "mem" none = .ok mux' ∧
      URLMux.OpenKeeperURL (some mux') ctx0 ⟨"mem", "//a"⟩ =
        (none, some (.strErr ("open keeper \"" ++ (URLv.mk "mem" "//a").toString ++
          "\": no provider registered for " ++ (URLv.mk "mem" "//a").Scheme))) ∧
      ∀ o2, URLMux.RegisterKeeper mux' "mem" o2 =
        .error ("scheme \"" ++ "mem" ++ "\" already registered on mux") :=
  ⟨rfl, rfl, by decide,
   registerKeeper_nil_opener ⟨none⟩ "mem" ctx0 ⟨"mem", "//a"⟩ rfl rfl (by decide)⟩
